import Mathlib

/-!
Verification of the chronological range-filter component of the
streamlit-dashboard repository.

The repository's logic lives in three Python scripts.  The core is a
range-filter helper repeated in two variants:

* `app.py` : `month_range_filter(df, month_num_col, month_name_col, label)` —
  single-year variant keyed by the integer column `Month_#` and labelled by
  the `Month` name column;
* `yamileth.py` : `year_month_range_filter(df, ...)` — multi-year variant
  keyed by `(Year, Month_#)` tuples compared with Python's lexicographic
  tuple order, with a "Select All" checkbox override.

Tables are embedded as Lean lists of row structures; pandas boolean-mask
filtering is `List.filter`; `drop_duplicates()` (which keeps the first
occurrence) composed with `sort_values` is a keep-first deduplication
followed by a sort; Python `dict` built with `dict(zip(keys, values))`
(later duplicate keys overwrite earlier ones) is a last-occurrence lookup;
a raising `dict[k]` subscript or `.iloc[0]` on an empty selection is
modelled with `Except`/`Option` so that the raising path is a visible
`.error`/`none` value.
-/

/-- One row of the practice-area table `pa_data.xlsx` used by `app.py`:
a `Practice area` dimension value, the `Month_#` integer key, the `Month`
display name, and the numeric `Research hours` value column. -/
structure PRow where
  dim : String
  month_num : Nat
  month_name : String
  value : Rat
deriving DecidableEq

/-- One row of the overall table `GRO_data.xlsx` used by `app.py`:
the `Month_#` integer key, the `Month` display name, the `Metric` label and
the numeric `Value`. -/
structure ORow where
  month_num : Nat
  month_name : String
  metric : String
  value : Rat
deriving DecidableEq

/-- One row of the FTE table `fte_data.xlsx` used by `yamileth.py`:
the `Year` and `Month_#` key columns, the `Month` display name, the `FTE`
dimension, the `Metric` label and the numeric `Value`. -/
structure YRow where
  year : Nat
  month_num : Nat
  month_name : String
  fte : String
  metric : String
  value : Rat
deriving DecidableEq

/-- The practice-area pre-filter of `app.py`:
`pa_plot[pa_plot["Practice area"].isin(practice_areas)]`. -/
def applyDimensionFilter (df : List PRow) (dims : List String) : List PRow :=
  df.filter fun r => dims.contains r.dim

/-- Keep-first deduplication: pandas `drop_duplicates()` keeps the first
occurrence of each duplicated row.  `List.dedup` keeps the last occurrence,
so we dedup the reversed list and reverse back. -/
def dedupFirst {α : Type} [DecidableEq α] (l : List α) : List α :=
  (l.reverse).dedup.reverse

/-- Comparison used by `sort_values(month_num_col)` on the distinct
`(Month_#, Month)` pairs: order by the month number. -/
def pairLe (a b : Nat × String) : Prop := a.1 ≤ b.1

instance : DecidableRel pairLe := fun a b => inferInstanceAs (Decidable (a.1 ≤ b.1))

instance : IsTotal (Nat × String) pairLe := ⟨fun a b => Nat.le_total a.1 b.1⟩

instance : IsTrans (Nat × String) pairLe := ⟨fun _ _ _ h1 h2 => Nat.le_trans h1 h2⟩

/-- `app.py` lines 23–27: `months_df = df[[month_num_col, month_name_col]]
.drop_duplicates().sort_values(month_num_col)`, as the list of distinct
`(Month_#, Month)` pairs sorted by month number. -/
def monthOptions (df : List PRow) : List (Nat × String) :=
  List.insertionSort pairLe (dedupFirst (df.map fun r => (r.month_num, r.month_name)))

/-- The dictionary `name_to_num = dict(zip(month_names, month_numbers))`:
a duplicate month name later in the options overwrites an earlier entry, so
lookup returns the number of the last option carrying the name.  A missing
key raises `KeyError`, modelled by `none`. -/
def nameToNum (opts : List (Nat × String)) (name : String) : Option Nat :=
  (opts.reverse.find? fun p => p.2 == name).map (·.1)

/-- The boolean-mask filter of `app.py` lines 46–50:
`df.loc[(df[month_num_col] >= start_month_num) & (df[month_num_col] <= end_month_num)]`. -/
def applyRangeM (df : List PRow) (s e : Nat) : List PRow :=
  df.filter fun r => decide (s ≤ r.month_num ∧ r.month_num ≤ e)

/-- `app.py` `month_range_filter`.  The slider's selected month names are the
`start_name`/`end_name` arguments (the widget itself is external).  If the
options table is empty the function warns and returns
`(None, None, None, None, df.copy())`, embedded as `.ok (none, df)`.
Otherwise the names are resolved through `name_to_num[...]` — a raising
subscript, embedded as `.error "KeyError"` when absent — and the mask filter
is applied. -/
def month_range_filter (df : List PRow) (start_name end_name : String) :
    Except String (Option (String × String × Nat × Nat) × List PRow) :=
  if monthOptions df = [] then .ok (none, df)
  else
    match nameToNum (monthOptions df) start_name, nameToNum (monthOptions df) end_name with
    | some s, some e => .ok (some (start_name, end_name, s, e), applyRangeM df s e)
    | _, _ => .error "KeyError"

theorem mem_dedupFirst {α : Type} [DecidableEq α] (a : α) (l : List α) :
    a ∈ dedupFirst l ↔ a ∈ l := by
  simp [dedupFirst, List.mem_dedup]

theorem mem_monthOptions (p : Nat × String) (df : List PRow) :
    p ∈ monthOptions df ↔ p ∈ df.map fun r => (r.month_num, r.month_name) := by
  simp [monthOptions, List.mem_insertionSort, mem_dedupFirst]

/-- Python's lexicographic comparison `(y1, m1) <= (y2, m2)` on the
`(Year, Month_#)` tuples built in `yamileth.py`: year first, then month. -/
def ymLE (a b : Nat × Nat) : Prop := a.1 < b.1 ∨ (a.1 = b.1 ∧ a.2 ≤ b.2)

instance : DecidableRel ymLE := fun a b =>
  inferInstanceAs (Decidable (a.1 < b.1 ∨ (a.1 = b.1 ∧ a.2 ≤ b.2)))

/-- The chronological key of an FTE-table row: the `(Year, Month_#)` tuple
zipped in `yamileth.py` line 101. -/
def YRow.key (r : YRow) : Nat × Nat := (r.year, r.month_num)

/-- The boolean mask of `yamileth.py` lines 100–103:
`[(start_ym <= ym <= end_ym) for ym in zip(df[year_col], df[month_num_col])]`. -/
def applyRangeY (df : List YRow) (s e : Nat × Nat) : List YRow :=
  df.filter fun r => decide (ymLE s r.key ∧ ymLE r.key e)

/-- Comparison used by `sort_values([year_col, month_num_col])` on the
distinct `(Year, Month_#, Month)` triples: lexicographic on year then
month number. -/
def tripLe (a b : Nat × Nat × String) : Prop :=
  a.1 < b.1 ∨ (a.1 = b.1 ∧ a.2.1 ≤ b.2.1)

instance : DecidableRel tripLe := fun a b =>
  inferInstanceAs (Decidable (a.1 < b.1 ∨ (a.1 = b.1 ∧ a.2.1 ≤ b.2.1)))

instance : IsTotal (Nat × Nat × String) tripLe := by
  constructor
  intro a b
  rcases Nat.lt_trichotomy a.1 b.1 with h | h | h
  · exact Or.inl (Or.inl h)
  · rcases Nat.le_total a.2.1 b.2.1 with h2 | h2
    · exact Or.inl (Or.inr ⟨h, h2⟩)
    · exact Or.inr (Or.inr ⟨h.symm, h2⟩)
  · exact Or.inr (Or.inl h)

instance : IsTrans (Nat × Nat × String) tripLe := by
  constructor
  intro a b c hab hbc
  rcases hab with h1 | ⟨h1, h1'⟩ <;> rcases hbc with h2 | ⟨h2, h2'⟩ <;>
    [exact Or.inl (h1.trans h2); exact Or.inl (h2 ▸ h1);
     exact Or.inl (h1 ▸ h2); exact Or.inr ⟨h1.trans h2, h1'.trans h2'⟩]

/-- `yamileth.py` lines 47–51: `ym_df = df[[year_col, month_num_col,
month_name_col]].drop_duplicates().sort_values([year_col, month_num_col])`,
as the list of distinct `(Year, Month_#, Month)` triples sorted
chronologically. -/
def ymOptions (df : List YRow) : List (Nat × Nat × String) :=
  List.insertionSort tripLe (dedupFirst (df.map fun r => (r.year, r.month_num, r.month_name)))

/-- The `(Year, Month_#)` key of an options triple; `options = list(zip(
ym_df[year_col], ym_df[month_num_col]))` is the options list mapped through
this projection. -/
def keyOfTriple (t : Nat × Nat × String) : Nat × Nat := (t.1, t.2.1)

/-- The dictionary `ym_to_name = {(y, m): n for y, m, n in zip(...)}`:
a later duplicate `(Year, Month_#)` key overwrites an earlier one, so lookup
returns the name of the last matching triple.  A raising `ym_to_name[ym]`
subscript on a missing key is modelled by `none`. -/
def ymToName (opts : List (Nat × Nat × String)) (ym : Nat × Nat) : Option String :=
  (opts.reverse.find? fun t => keyOfTriple t == ym).map (·.2.2)

/-- `yamileth.py` `year_month_range_filter`.  The checkbox state is
`select_all`; the slider's selected `(Year, Month_#)` endpoints are
`start_ym`/`end_ym` (the widgets are external).  An empty options table
returns `(None, ..., df.copy())`, embedded as `.ok (none, df)`.  With
`select_all` set, the bounds default to the first and last option and the
table is returned unfiltered (`df.copy()`).  Otherwise the selected tuples
are resolved to names through the raising subscript `ym_to_name[...]` and
the lexicographic mask filter is applied. -/
def year_month_range_filter (df : List YRow) (select_all : Bool) (start_ym end_ym : Nat × Nat) :
    Except String (Option ((Nat × Nat) × String × (Nat × Nat) × String) × List YRow) :=
  match ymOptions df with
  | [] => .ok (none, df)
  | t :: ts =>
      let startDefault := keyOfTriple t
      let endDefault := keyOfTriple ((t :: ts).getLastD t)
      if select_all then
        match ymToName (t :: ts) startDefault, ymToName (t :: ts) endDefault with
        | some ns, some ne => .ok (some (startDefault, ns, endDefault, ne), df)
        | _, _ => .error "KeyError"
      else
        match ymToName (t :: ts) start_ym, ymToName (t :: ts) end_ym with
        | some ns, some ne =>
            .ok (some (start_ym, ns, end_ym, ne), applyRangeY df start_ym end_ym)
        | _, _ => .error "KeyError"

/-- `app.py` line 121: `last_month_num = 12 if current_month_num == 1 else
current_month_num - 1`. -/
def last_month_num (current_month_num : Nat) : Nat :=
  if current_month_num = 1 then 12 else current_month_num - 1

/-- `app.py` line 122: `overall_plot.loc[overall_plot['Month_#'] ==
last_month_num, 'Month'].iloc[0]` — `.iloc[0]` raises `IndexError` on an
empty selection, modelled by `none`. -/
def last_month_name (overall : List ORow) (lm : Nat) : Option String :=
  ((overall.filter fun r => decide (r.month_num = lm)).map (·.month_name)).head?

/-- `app.py` lines 123–124, `get_metric_value(metric_name)`:
`overall_plot.loc[(overall_plot['Month_#'] == last_month_num) &
(overall_plot['Metric'] == metric_name), 'Value'].iloc[0]` — the `.iloc[0]`
raises `IndexError` when no row matches, modelled by `none`. -/
def get_metric_value (overall : List ORow) (lm : Nat) (metric_name : String) : Option Rat :=
  ((overall.filter fun r => decide (r.month_num = lm ∧ r.metric = metric_name)).map
    (·.value)).head?

/-- The "last month" summary block of `app.py` (section 5): the resolved
month label and the Utilization, Billability and Engagement figures, all
read from the unfiltered `overall_plot` table. -/
def app_summary (overall : List ORow) (current_month_num : Nat) :
    Option String × Option Rat × Option Rat × Option Rat :=
  (last_month_name overall (last_month_num current_month_num),
   get_metric_value overall (last_month_num current_month_num) "Utilization",
   get_metric_value overall (last_month_num current_month_num) "Billability",
   get_metric_value overall (last_month_num current_month_num) "Engagement")

/-- The outputs of one top-to-bottom run of the `app.py` script that depend
on the loaded tables and the user's widget state: the resolved range labels
and numbers, the range-filtered practice-area table, the summary block, and
the rows of `overall_plot` selected for the metrics-evolution line chart. -/
structure AppRun where
  resolved : Option (String × String × Nat × Nat)
  pa_filtered : List PRow
  summary : Option String × Option Rat × Option Rat × Option Rat
  chart_rows : List ORow
deriving DecidableEq

/-- One run of the `app.py` script (sections 4–6): apply the practice-area
multiselect to `pa_plot`, run `month_range_filter` on the result, compute
the summary block from the untouched `overall_plot`, and select the line
chart's rows `overall_plot.loc[(Metric.isin(metrics)) &
(Month.isin(pa_plot_filtered['Month'].unique()))]`.  A `KeyError` raised
inside `month_range_filter` aborts the script run. -/
def app_run (overall : List ORow) (pa : List PRow) (practice_areas : List String)
    (start_name end_name : String) (current_month_num : Nat) : Except String AppRun :=
  (month_range_filter (applyDimensionFilter pa practice_areas) start_name end_name).map
    fun p =>
      { resolved := p.1
        pa_filtered := p.2
        summary := app_summary overall current_month_num
        chart_rows := overall.filter fun r =>
          decide (r.metric ∈ (["Billability", "Utilization", "Engagement"] : List String) ∧
            r.month_name ∈ p.2.map fun x => x.month_name) }

theorem ymToName_isSome_of_mem (opts : List (Nat × Nat × String)) (u : Nat × Nat × String)
    (hu : u ∈ opts) : (ymToName opts (keyOfTriple u)).isSome := by
  simp only [ymToName, Option.isSome_map', List.find?_isSome, List.mem_reverse]
  exact ⟨u, hu, by simp⟩

theorem getLastD_mem_cons {α : Type} (ts : List α) (t d : α) :
    (t :: ts).getLastD d ∈ t :: ts := by
  induction ts generalizing t with
  | nil => simp
  | cons b bs ih => exact List.mem_cons_of_mem t (ih b)

/-- Claim C1: for every table and every resolved range `(s, e)` with
`s ≤ e`, the range filter returns exactly the rows whose chronological key
lies in `[s, e]` inclusive — a sublist of the input (stable filter, so a
subset preserving the original row order) with no false positives and no
false negatives.  Stated for both variants: the `(Year, Month_#)` mask of
`yamileth.py` and the `Month_#` mask of `app.py`. -/
theorem applyRange_exact_inclusive (TY : List YRow) (s e : Nat × Nat)
    (TM : List PRow) (sm em : Nat) (_hse : ymLE s e) (_hsem : sm ≤ em) :
    ((applyRangeY TY s e).Sublist TY ∧
      ∀ r : YRow, r ∈ applyRangeY TY s e ↔ r ∈ TY ∧ ymLE s r.key ∧ ymLE r.key e) ∧
    ((applyRangeM TM sm em).Sublist TM ∧
      ∀ r : PRow, r ∈ applyRangeM TM sm em ↔ r ∈ TM ∧ sm ≤ r.month_num ∧ r.month_num ≤ em) := by
  refine ⟨⟨List.filter_sublist _, ?_⟩, List.filter_sublist _, ?_⟩ <;>
    intro r <;> simp [applyRangeY, applyRangeM, List.mem_filter]

def wRowY : YRow := ⟨2024, 2, "February", "GRO", "Utilization", 1⟩

theorem applyRange_exact_inclusive_witness :
    ymLE (2024, 1) (2024, 3) ∧ 1 ≤ 3 ∧
    (((applyRangeY [wRowY] (2024, 1) (2024, 3)).Sublist [wRowY] ∧
      ∀ r : YRow, r ∈ applyRangeY [wRowY] (2024, 1) (2024, 3) ↔
        r ∈ [wRowY] ∧ ymLE (2024, 1) r.key ∧ ymLE r.key (2024, 3)) ∧
    ((applyRangeM [] 1 3).Sublist [] ∧
      ∀ r : PRow, r ∈ applyRangeM [] 1 3 ↔ r ∈ ([] : List PRow) ∧ 1 ≤ r.month_num ∧ r.month_num ≤ 3)) :=
  ⟨by decide, by decide,
    applyRange_exact_inclusive [wRowY] (2024, 1) (2024, 3) [] 1 3 (by decide) (by decide)⟩

/-- Claim C9: range filtering is idempotent — applying the same resolved
range twice yields the same table as applying it once, for both the
`yamileth.py` and the `app.py` mask filters. -/
theorem applyRange_idempotent (TY : List YRow) (s e : Nat × Nat)
    (TM : List PRow) (sm em : Nat) :
    applyRangeY (applyRangeY TY s e) s e = applyRangeY TY s e ∧
    applyRangeM (applyRangeM TM sm em) sm em = applyRangeM TM sm em := by
  constructor <;> simp [applyRangeY, applyRangeM, List.filter_filter, Bool.and_self]

/-- Claim C8: the chronological order on `(Year, Month_#)` keys is
lexicographic — year compared first, then month number.  Consequently
`(2023, 12) ≤ (2024, 1)` strictly (despite `1 < 12` as month numbers), and
filtering any table to the resolved range `(2023, 12)..(2024, 1)` excludes
every `(2023, 11)` row. -/
theorem chronokey_order_lexicographic (T : List YRow) :
    (∀ a b : Nat × Nat, ymLE a b ↔ (a.1 < b.1 ∨ (a.1 = b.1 ∧ a.2 ≤ b.2))) ∧
    ymLE (2023, 12) (2024, 1) ∧ ¬ ymLE (2024, 1) (2023, 12) ∧
    (applyRangeY T (2023, 12) (2024, 1)).all
      (fun r => decide (r.key ≠ ((2023 : Nat), (11 : Nat)))) = true := by
  refine ⟨fun a b => Iff.rfl, by decide, by decide, ?_⟩
  rw [List.all_eq_true]
  intro r hr
  rw [applyRangeY, List.mem_filter] at hr
  have h2 := of_decide_eq_true hr.2
  apply decide_eq_true
  intro hkey
  rcases h2 with ⟨h1, _⟩
  rw [hkey] at h1
  rcases h1 with h | ⟨_, h⟩ <;> omega

/-- Claim C2: computing the range options on the dimension-filtered table
yields options whose key set is exactly the set of distinct `Month_#` keys
present in the dimension-filtered table (not the full dataset), sorted
ascending. -/
theorem rangeOptions_after_dimension_filter (T : List PRow) (D : List String) :
    (∀ n : Nat,
        n ∈ (monthOptions (applyDimensionFilter T D)).map Prod.fst ↔
          n ∈ (applyDimensionFilter T D).map PRow.month_num) ∧
    List.Sorted (· ≤ ·) ((monthOptions (applyDimensionFilter T D)).map Prod.fst) := by
  constructor
  · intro n
    constructor
    · intro hn
      rcases List.mem_map.1 hn with ⟨p, hp, hfst⟩
      rcases List.mem_map.1 ((mem_monthOptions p _).1 hp) with ⟨r, hr, hpr⟩
      refine List.mem_map.2 ⟨r, hr, ?_⟩
      rw [← hpr] at hfst
      exact hfst
    · intro hn
      rcases List.mem_map.1 hn with ⟨r, hr, hrn⟩
      exact List.mem_map.2 ⟨(r.month_num, r.month_name),
        (mem_monthOptions _ _).2 (List.mem_map.2 ⟨r, hr, rfl⟩), hrn⟩
  · have hs : List.Sorted pairLe (monthOptions (applyDimensionFilter T D)) :=
      List.sorted_insertionSort pairLe _
    exact List.Pairwise.map Prod.fst (fun a b h => h) hs

/-- Claim C3: with a non-empty option list and the Select All checkbox set,
`year_month_range_filter` ignores the slider's requested bounds and
resolves the range to the first and last option keys, returning the whole
input table unfiltered. -/
theorem select_all_resolves_full_range (df : List YRow) (s e : Nat × Nat)
    (h : ymOptions df ≠ []) :
    ∃ ns ne,
      year_month_range_filter df true s e =
        .ok (some (keyOfTriple ((ymOptions df).headD (0, 0, "")), ns,
                   keyOfTriple ((ymOptions df).getLastD (0, 0, "")), ne), df) := by
  cases heq : ymOptions df with
  | nil => exact absurd heq h
  | cons t ts =>
      have h1 : (ymToName (t :: ts) (keyOfTriple t)).isSome :=
        ymToName_isSome_of_mem _ _ (List.mem_cons_self t ts)
      have h2 : (ymToName (t :: ts) (keyOfTriple ((t :: ts).getLastD t))).isSome :=
        ymToName_isSome_of_mem _ _ (getLastD_mem_cons ts t t)
      rcases Option.isSome_iff_exists.1 h1 with ⟨ns, hns⟩
      rcases Option.isSome_iff_exists.1 h2 with ⟨ne, hne⟩
      rw [List.getLastD_cons] at hne
      refine ⟨ns, ne, ?_⟩
      simp only [year_month_range_filter, heq, List.headD_cons, List.getLastD_cons,
        if_pos, hns, hne]

def wRowY2 : YRow := ⟨2023, 5, "May", "GRO", "Billability", 1⟩

theorem select_all_resolves_full_range_witness :
    ymOptions [wRowY2] ≠ [] ∧
    ∃ ns ne,
      year_month_range_filter [wRowY2] true (9, 9) (1, 1) =
        .ok (some (keyOfTriple ((ymOptions [wRowY2]).headD (0, 0, "")), ns,
                   keyOfTriple ((ymOptions [wRowY2]).getLastD (0, 0, "")), ne), [wRowY2]) :=
  ⟨by decide, select_all_resolves_full_range [wRowY2] (9, 9) (1, 1) (by decide)⟩

/-- Claim C5: when the table has no distinct chronological keys (an empty
options list, e.g. after a dimension filter removed all rows) both filter
variants signal the condition with `None` sentinels — distinct from a
resolved-but-empty range, which carries `some` resolved bounds — skip range
filtering, and return the input table unchanged. -/
theorem no_options_passes_table_through (dfP : List PRow) (sn en : String)
    (dfY : List YRow) (sa : Bool) (s e : Nat × Nat)
    (hP : monthOptions dfP = []) (hY : ymOptions dfY = []) :
    month_range_filter dfP sn en = .ok (none, dfP) ∧
    year_month_range_filter dfY sa s e = .ok (none, dfY) := by
  constructor
  · rw [month_range_filter, if_pos hP]
  · simp only [year_month_range_filter, hY]

theorem no_options_passes_table_through_witness :
    monthOptions [] = [] ∧ ymOptions [] = [] ∧
    month_range_filter [] "Jan" "Mar" = .ok (none, []) ∧
    year_month_range_filter [] false (2023, 1) (2024, 2) = .ok (none, []) :=
  ⟨by decide, by decide,
    no_options_passes_table_through [] "Jan" "Mar" [] false (2023, 1) (2024, 2)
      (by decide) (by decide)⟩

def cexRowJan : PRow := ⟨"A", 1, "Jan", 1⟩

def cexRowFeb : PRow := ⟨"A", 2, "Feb", 1⟩

def cexRowMar : PRow := ⟨"A", 3, "Mar", 1⟩

def cexTable : List PRow := [cexRowJan, cexRowFeb, cexRowMar]

/-- Claim C4 fails on the code: the bounds are applied exactly as supplied,
with no swap.  On a table with months Jan–Mar, the reversed call (end `Mar`
passed as start) resolves to `(3, 2)` — not the `(2, 3)` the in-order call
yields — and the range filter then returns the empty table. -/
theorem reversed_bounds_not_swapped :
    month_range_filter cexTable "Mar" "Feb" = .ok (some ("Mar", "Feb", 3, 2), []) ∧
    month_range_filter cexTable "Feb" "Mar" =
      .ok (some ("Feb", "Mar", 2, 3), [cexRowFeb, cexRowMar]) :=
  ⟨rfl, rfl⟩

/-- Claim C4 as amended: `month_range_filter` returns the requested bounds
unmodified after name resolution; it never swaps them.  When the caller
supplies them reversed (resolved end number strictly below the resolved
start number) the mask `start ≤ k ≤ end` is unsatisfiable and the filtered
table is empty, rather than equal to the in-order result. -/
theorem reversed_bounds_give_empty_result (df : List PRow) (sn en : String) (s e : Nat)
    (hs : nameToNum (monthOptions df) sn = some s)
    (he : nameToNum (monthOptions df) en = some e)
    (hlt : e < s) :
    month_range_filter df sn en = .ok (some (sn, en, s, e), []) := by
  have hne : monthOptions df ≠ [] := by
    intro h0
    rw [h0] at hs
    simp [nameToNum] at hs
  have hempty : applyRangeM df s e = [] := by
    rw [applyRangeM, List.filter_eq_nil_iff]
    intro r _
    simp only [decide_eq_true_eq, not_and]
    omega
  rw [month_range_filter, if_neg hne, hs, he]
  show Except.ok (some (sn, en, s, e), applyRangeM df s e) = _
  rw [hempty]

theorem reversed_bounds_give_empty_result_witness :
    nameToNum (monthOptions cexTable) "Mar" = some 3 ∧
    nameToNum (monthOptions cexTable) "Feb" = some 2 ∧
    2 < 3 ∧
    month_range_filter cexTable "Mar" "Feb" = .ok (some ("Mar", "Feb", 3, 2), []) :=
  ⟨by decide, by decide, by decide,
    reversed_bounds_give_empty_result cexTable "Mar" "Feb" 3 2 (by decide) (by decide)
      (by decide)⟩

/-- Claim C6 fails on the code: a requested bound that is not in the option
list makes the dictionary subscript `name_to_num[start_month_name]` raise a
bare `KeyError`; the deployed code does not fall back to the full available
range (which would be the `.ok` result resolving `("Jan", "Mar", 1, 3)`),
it aborts. -/
theorem invalid_endpoint_no_fallback :
    month_range_filter cexTable "Nope" "Mar" = .error "KeyError" :=
  rfl

/-- Claim C6 as amended: a requested bound absent from the option list makes
`month_range_filter` raise an unhandled `KeyError` from the
`name_to_num[...]` lookup; there is no named invalid-range-endpoint
condition and no fallback to the full range. -/
theorem invalid_endpoint_raises_keyerror (df : List PRow) (sn en : String)
    (hne : monthOptions df ≠ [])
    (hs : nameToNum (monthOptions df) sn = none) :
    month_range_filter df sn en = .error "KeyError" := by
  rw [month_range_filter, if_neg hne, hs]

theorem invalid_endpoint_raises_keyerror_witness :
    monthOptions cexTable ≠ [] ∧
    nameToNum (monthOptions cexTable) "Nope" = none ∧
    month_range_filter cexTable "Nope" "Mar" = .error "KeyError" :=
  ⟨by decide, by decide,
    invalid_endpoint_raises_keyerror cexTable "Nope" "Mar" (by decide) (by decide)⟩

def ovSept1 : ORow := ⟨9, "September", "Utilization", 17/20⟩

def ovSept2 : ORow := ⟨9, "September", "Billability", 7/10⟩

def ovTable : List ORow := [ovSept1, ovSept2]

/-- Claim C7 identifies a code bug: with an overall table holding September
rows only for Utilization and Billability and the clock in October
(`last_month_num = 9`), `get_metric_value("Engagement")` selects no row, so
`.iloc[0]` (here: `none`) raises `IndexError` and the whole script crashes
before rendering any figure — the two present figures do exist and would
render were absence handled, but the ungated lookup raises instead of
omitting the missing one. -/
theorem missing_metric_lookup_raises :
    get_metric_value ovTable (last_month_num 10) "Engagement" = none ∧
    get_metric_value ovTable (last_month_num 10) "Utilization" = some (17/20) ∧
    get_metric_value ovTable (last_month_num 10) "Billability" = some (7/10) := by
  refine ⟨rfl, rfl, rfl⟩

/-- Claim C10: the latest-month summary block of `app.py` — the month label
and the Utilization, Billability and Engagement figures — is computed from
the untouched `overall_plot` table and the current calendar month alone:
two script runs over the same loaded tables and clock that differ only in
the practice-area multiselect and the month-range slider produce identical
summary blocks. -/
theorem summary_independent_of_selections (overall : List ORow) (pa : List PRow)
    (sel1 sel2 : List String) (sn1 en1 sn2 en2 : String) (m : Nat)
    (h1 : (app_run overall pa sel1 sn1 en1 m).isOk = true)
    (h2 : (app_run overall pa sel2 sn2 en2 m).isOk = true) :
    (app_run overall pa sel1 sn1 en1 m).map AppRun.summary =
      (app_run overall pa sel2 sn2 en2 m).map AppRun.summary := by
  cases hm1 : month_range_filter (applyDimensionFilter pa sel1) sn1 en1 with
  | error msg =>
      rw [app_run, hm1] at h1
      simp [Except.map, Except.isOk, Except.toBool] at h1
  | ok p1 =>
      cases hm2 : month_range_filter (applyDimensionFilter pa sel2) sn2 en2 with
      | error msg =>
          rw [app_run, hm2] at h2
          simp [Except.map, Except.isOk, Except.toBool] at h2
      | ok p2 =>
          simp only [app_run]
          rw [hm1, hm2]
          rfl

def ovW : ORow := ⟨1, "Jan", "Utilization", 1⟩

def paW : PRow := ⟨"A", 1, "Jan", 2⟩

theorem summary_independent_of_selections_witness :
    (app_run [ovW] [paW] ["A"] "Jan" "Jan" 2).isOk = true ∧
    (app_run [ovW] [paW] [] "Feb" "Mar" 2).isOk = true ∧
    (app_run [ovW] [paW] ["A"] "Jan" "Jan" 2).map AppRun.summary =
      (app_run [ovW] [paW] [] "Feb" "Mar" 2).map AppRun.summary :=
  ⟨by decide, by decide,
    summary_independent_of_selections [ovW] [paW] ["A"] [] "Jan" "Jan" "Feb" "Mar" 2
      (by decide) (by decide)⟩
